import Mathlib

/-!
Verification of the `feeds` weather component (`internal/feeds/weather.go`).

The Go code is shallowly embedded: `float64` values that the code only
stores, compares and formats (never does float arithmetic on) are exact
decimal constants, modelled as exact rationals via `mkRat`; the Go maps are
modelled as association lists in their source order; the single HTTP call
is modelled by passing the external world explicitly as a function from the
request URL to an outcome; the fallible fetch returns `Except`.
-/

namespace Feeds

/-- Embeds Go struct `WeatherData`: weather information returned to callers. -/
structure WeatherData where
  Summary : String
  TemperatureC : ℚ
  FeelsLikeC : ℚ
deriving DecidableEq, Repr

/-- Embeds Go struct `Coordinates`: latitude and longitude. -/
structure Coordinates where
  Lat : ℚ
  Lon : ℚ
deriving DecidableEq, Repr

/-- Embeds the nested `Current` struct of Go `OpenMeteoResponse`:
the decoded fields `temperature_2m`, `apparent_temperature`, `weather_code`. -/
structure OpenMeteoCurrent where
  Temperature : ℚ
  ApparentTemperature : ℚ
  WeatherCode : Int
deriving DecidableEq, Repr

/-- Embeds Go map `naCountryCoordinates`, in source order.
Values are the source decimals: US = (40.7128, -74.0060) New York,
CA = (43.6532, -79.3832) Toronto, MX = (19.4326, -99.1332) Mexico City. -/
def naCountryCoordinates : List (String × Coordinates) :=
  [("US", ⟨mkRat 407128 10000, mkRat (-740060) 10000⟩),
   ("CA", ⟨mkRat 436532 10000, mkRat (-793832) 10000⟩),
   ("MX", ⟨mkRat 194326 10000, mkRat (-991332) 10000⟩)]

/-- Embeds Go map `weatherCodeDescriptions`, in source order. -/
def weatherCodeDescriptions : List (Int × String) :=
  [(0, "Clear sky"),
   (1, "Mainly clear"),
   (2, "Partly cloudy"),
   (3, "Overcast"),
   (45, "Foggy"),
   (48, "Depositing rime fog"),
   (51, "Light drizzle"),
   (53, "Moderate drizzle"),
   (55, "Dense drizzle"),
   (61, "Slight rain"),
   (63, "Moderate rain"),
   (65, "Heavy rain"),
   (71, "Slight snow"),
   (73, "Moderate snow"),
   (75, "Heavy snow"),
   (77, "Snow grains"),
   (80, "Slight rain showers"),
   (81, "Moderate rain showers"),
   (82, "Violent rain showers"),
   (85, "Slight snow showers"),
   (86, "Heavy snow showers"),
   (95, "Thunderstorm"),
   (96, "Thunderstorm with slight hail"),
   (99, "Thunderstorm with heavy hail")]

/-- Go map read with comma-ok: `coords, ok := naCountryCoordinates[country]`. -/
def lookupCoord (country : String) : Option Coordinates :=
  match naCountryCoordinates.find? (fun p => p.1 == country) with
  | some p => some p.2
  | none => none

/-- Go map read with comma-ok on `weatherCodeDescriptions`. -/
def lookupWeatherDesc (code : Int) : Option String :=
  match weatherCodeDescriptions.find? (fun p => p.1 == code) with
  | some p => some p.2
  | none => none

/-- The fallback read `naCountryCoordinates["US"]` (a Go map index without
comma-ok yields the zero value when the key is absent). -/
def usFallbackCoords : Coordinates :=
  match lookupCoord "US" with
  | some c => c
  | none => ⟨0, 0⟩

/-- Coordinate resolution, lines 70-74 of `FetchWeather`: table hit, else
default to the `"US"` entry (New York). -/
def resolveCoordinates (country : String) : Coordinates :=
  match lookupCoord country with
  | some c => c
  | none => usFallbackCoords

/-- Weather-code translation, lines 105-108 of `FetchWeather`: table hit,
else the literal `"Unknown"`. -/
def describeWeatherCode (code : Int) : String :=
  match lookupWeatherDesc code with
  | some d => d
  | none => "Unknown"

/-- Left-pad a digit string with zeros to width 4 (for the fractional part). -/
def pad4 (s : String) : String :=
  String.mk (List.replicate (4 - s.length) '0') ++ s

/-- The value of `q` scaled by `10^4` and rounded to the nearest integer
(half away from zero is irrelevant here: every coordinate in the table is
an exact multiple of `10^-4`, so no rounding occurs). -/
def scale4 (q : ℚ) : Int :=
  Int.fdiv (2 * q.num * 10000 + (q.den : Int)) (2 * (q.den : Int))

/-- Go `fmt.Sprintf("%.4f", q)`: fixed-point rendering with exactly 4
fractional digits. -/
def format4 (q : ℚ) : String :=
  let n : Int := scale4 q
  let sign : String := if n < 0 then "-" else ""
  let m : Nat := n.natAbs
  sign ++ toString (m / 10000) ++ "." ++ pad4 (toString (m % 10000))

/-- The Open-Meteo request URL built by `FetchWeather` (lines 77-80):
`fmt.Sprintf` of the forecast endpoint with `%.4f`-formatted coordinates. -/
def buildURL (coords : Coordinates) : String :=
  "https://api.open-meteo.com/v1/forecast?latitude=" ++ format4 coords.Lat ++
    "&longitude=" ++ format4 coords.Lon ++
    "&current=temperature_2m,apparent_temperature,weather_code"

/-- The URL `FetchWeather country` requests. -/
def requestURL (country : String) : String :=
  buildURL (resolveCoordinates country)

/-- Go `http.StatusOK`. -/
def StatusOK : Int := 200

/-- Outcome of the single `client.Get(url)` call, as seen by `FetchWeather`:
either the transport fails (request cannot be sent / times out), or a
response arrives with a status code and a body; the body is modelled
post-JSON-decoding, `Except` carrying the decoder error message when the
body does not match `OpenMeteoResponse`. -/
inductive HttpOutcome where
  | transportFailure (msg : String)
  | response (status : Int) (body : Except String OpenMeteoCurrent)

/-- The three failure shapes of `FetchWeather`, each carrying the payload
that Go formats into the returned error. -/
inductive FetchError where
  | transport (msg : String)
  | httpStatus (status : Int)
  | decode (msg : String)
deriving DecidableEq, Repr

/-- The error message Go formats for each failure (`fmt.Errorf`). -/
def renderFetchError : FetchError → String
  | .transport msg => "weather API call failed: " ++ msg
  | .httpStatus s => "weather API returned status " ++ toString s
  | .decode msg => "failed to parse weather response: " ++ msg

/-- Embeds Go `FetchWeather` (lines 68-115). The external world is passed
explicitly: `world url` is what the HTTP GET of `url` produces. The Go
`(*WeatherData, error)` pair, which is always exactly one of the two,
becomes `Except`. -/
def FetchWeather (country : String) (world : String → HttpOutcome) :
    Except FetchError WeatherData :=
  match world (requestURL country) with
  | .transportFailure msg => .error (.transport msg)
  | .response status body =>
    if status ≠ StatusOK then
      .error (.httpStatus status)
    else
      match body with
      | .error msg => .error (.decode msg)
      | .ok apiResp =>
        .ok { Summary := describeWeatherCode apiResp.WeatherCode,
              TemperatureC := apiResp.Temperature,
              FeelsLikeC := apiResp.ApparentTemperature }

/-- The tail of `FetchWeather` once a 200 response is in hand: decode
outcome to returned value (definitionally the `else` branch above). -/
def decodePhase (b : Except String OpenMeteoCurrent) :
    Except FetchError WeatherData :=
  match b with
  | .error msg => .error (.decode msg)
  | .ok apiResp =>
    .ok { Summary := describeWeatherCode apiResp.WeatherCode,
          TemperatureC := apiResp.Temperature,
          FeelsLikeC := apiResp.ApparentTemperature }

/-- JSON values, as far as the output shape of `WeatherData` needs. -/
inductive Json where
  | str (s : String)
  | num (q : ℚ)
  | obj (fields : List (String × Json))

/-- Go `json.Marshal` of `WeatherData` under its field tags
`summary`, `temperatureC`, `feelsLikeC`. -/
def marshalWeatherData (w : WeatherData) : Json :=
  .obj [("summary", .str w.Summary),
        ("temperatureC", .num w.TemperatureC),
        ("feelsLikeC", .num w.FeelsLikeC)]

/-- First JSON object field with the given key, if any. -/
def lookupField (fields : List (String × Json)) (k : String) : Option Json :=
  match fields.find? (fun p => p.1 == k) with
  | some p => some p.2
  | none => none

/-- Decoding one string field, Go-style: a missing key leaves the zero
value `""`; a key of the wrong JSON type is an unmarshal error. -/
def decodeStrField (fields : List (String × Json)) (k : String) :
    Except String String :=
  match lookupField fields k with
  | none => .ok ""
  | some (.str s) => .ok s
  | some _ => .error ("cannot unmarshal field " ++ k)

/-- Decoding one number field, Go-style: a missing key leaves the zero
value `0`; a key of the wrong JSON type is an unmarshal error. -/
def decodeNumField (fields : List (String × Json)) (k : String) :
    Except String ℚ :=
  match lookupField fields k with
  | none => .ok 0
  | some (.num q) => .ok q
  | some _ => .error ("cannot unmarshal field " ++ k)

/-- Go `json.Unmarshal` into `WeatherData`: the document must be an
object; each tagged field is read by key. -/
def unmarshalWeatherData : Json → Except String WeatherData
  | .obj fields =>
    match decodeStrField fields "summary" with
    | .error e => .error e
    | .ok s =>
      match decodeNumField fields "temperatureC" with
      | .error e => .error e
      | .ok t =>
        match decodeNumField fields "feelsLikeC" with
        | .error e => .error e
        | .ok f => .ok ⟨s, t, f⟩
  | _ => .error "json: cannot unmarshal into WeatherData"


/-! ### Helper lemmas -/

/-- Bridge: `mkRat 407128 10000` is the US latitude decimal `40.7128`. -/
theorem usLat_eq : mkRat 407128 10000 = (40.7128 : ℚ) := by
  rw [Rat.mkRat_eq_divInt, Rat.divInt_eq_div]; norm_num

/-- Bridge: `mkRat (-740060) 10000` is the US longitude decimal `-74.0060`. -/
theorem usLon_eq : mkRat (-740060) 10000 = (-74.0060 : ℚ) := by
  rw [Rat.mkRat_eq_divInt, Rat.divInt_eq_div]; norm_num

/-- Bridge: `mkRat 436532 10000` is the CA latitude decimal `43.6532`. -/
theorem caLat_eq : mkRat 436532 10000 = (43.6532 : ℚ) := by
  rw [Rat.mkRat_eq_divInt, Rat.divInt_eq_div]; norm_num

/-- Bridge: `mkRat (-793832) 10000` is the CA longitude decimal `-79.3832`. -/
theorem caLon_eq : mkRat (-793832) 10000 = (-79.3832 : ℚ) := by
  rw [Rat.mkRat_eq_divInt, Rat.divInt_eq_div]; norm_num

/-- Bridge: `mkRat 194326 10000` is the MX latitude decimal `19.4326`. -/
theorem mxLat_eq : mkRat 194326 10000 = (19.4326 : ℚ) := by
  rw [Rat.mkRat_eq_divInt, Rat.divInt_eq_div]; norm_num

/-- Bridge: `mkRat (-991332) 10000` is the MX longitude decimal `-99.1332`. -/
theorem mxLon_eq : mkRat (-991332) 10000 = (-99.1332 : ℚ) := by
  rw [Rat.mkRat_eq_divInt, Rat.divInt_eq_div]; norm_num

/-- Reduction of `FetchWeather` when the world returns a response. -/
theorem FetchWeather_response (country : String) (s : Int)
    (b : Except String OpenMeteoCurrent) :
    FetchWeather country (fun _ => .response s b) =
      if s ≠ StatusOK then .error (.httpStatus s)
      else
        match b with
        | .error msg => .error (.decode msg)
        | .ok r =>
          .ok ⟨describeWeatherCode r.WeatherCode, r.Temperature,
               r.ApparentTemperature⟩ := rfl

/-! ### Claims -/

/-- Claim C1: coordinate resolution never fails. Every table code returns
its entry (`"US"` ↦ (40.7128, -74.0060), `"CA"` ↦ (43.6532, -79.3832),
`"MX"` ↦ (19.4326, -99.1332)); every absent code returns the fallback
coordinates of the fallback entry, which equal those of `"US"`; no error is possible. -/
theorem C1_coordinate_resolution_total (country : String)
    (habsent : lookupCoord country = none) :
    resolveCoordinates country = ⟨40.7128, -74.0060⟩ ∧
    resolveCoordinates country = resolveCoordinates "US" ∧
    resolveCoordinates "US" = ⟨40.7128, -74.0060⟩ ∧
    resolveCoordinates "CA" = ⟨43.6532, -79.3832⟩ ∧
    resolveCoordinates "MX" = ⟨19.4326, -99.1332⟩ := by
  have hus : resolveCoordinates "US" = ⟨40.7128, -74.0060⟩ := by
    show Coordinates.mk (mkRat 407128 10000) (mkRat (-740060) 10000) = _
    rw [usLat_eq, usLon_eq]
  have habs : resolveCoordinates country = resolveCoordinates "US" := by
    unfold resolveCoordinates
    rw [habsent]
    rfl
  refine ⟨habs.trans hus, habs, hus, ?_, ?_⟩
  · show Coordinates.mk (mkRat 436532 10000) (mkRat (-793832) 10000) = _
    rw [caLat_eq, caLon_eq]
  · show Coordinates.mk (mkRat 194326 10000) (mkRat (-991332) 10000) = _
    rw [mxLat_eq, mxLon_eq]

/-- Witness for C1 at the concrete unknown code `"XX"`. -/
theorem C1_witness :
    lookupCoord "XX" = none ∧ resolveCoordinates "XX" = ⟨40.7128, -74.0060⟩ :=
  ⟨by decide, (C1_coordinate_resolution_total "XX" (by decide)).1⟩

/-- Claim C2 counterexample: status 204 is a 2xx success status and the
body decodes, yet `FetchWeather` returns the http-status failure instead
of proceeding to decoding, because the code compares against 200 exactly. -/
theorem C2_counterexample :
    FetchWeather "US" (fun _ => .response 204 (.ok ⟨mkRat 255 10, 24, 0⟩)) =
      .error (.httpStatus 204) ∧
    FetchWeather "US" (fun _ => .response 204 (.ok ⟨mkRat 255 10, 24, 0⟩)) ≠
      .ok ⟨"Clear sky", mkRat 255 10, 24⟩ :=
  ⟨rfl, fun h => Except.noConfusion h⟩

/-- Claim C2 (amended): `FetchWeather` fails with the http-status error
exactly when the response status differs from 200 (`http.StatusOK`) — not
"any non-2xx": every status other than 200, 2xx or not, is rejected. For
status 200 it proceeds to decoding the body. -/
theorem C2_http_status_amended (country : String) (s : Int)
    (b : Except String OpenMeteoCurrent) :
    (FetchWeather country (fun _ => .response s b) = .error (.httpStatus s) ↔
      s ≠ StatusOK) ∧
    (s = StatusOK → FetchWeather country (fun _ => .response s b) =
      match b with
      | .error msg => .error (.decode msg)
      | .ok r =>
        .ok ⟨describeWeatherCode r.WeatherCode, r.Temperature,
             r.ApparentTemperature⟩) := by
  rw [FetchWeather_response]
  by_cases hs : s = StatusOK
  · subst hs
    rw [if_neg (by simp)]
    refine ⟨⟨fun h => ?_, fun h => absurd rfl h⟩, fun _ => rfl⟩
    cases b with
    | error m => simp at h
    | ok r => simp at h
  · rw [if_pos hs]
    exact ⟨⟨fun _ => hs, fun _ => rfl⟩, fun h => absurd h hs⟩

/-- Witness for the amended C2 theorem at the concrete spec status 500. -/
theorem C2_amended_witness :
    FetchWeather "US" (fun _ => .response 500 (.ok ⟨mkRat 255 10, 24, 0⟩)) =
      .error (.httpStatus 500) :=
  (C2_http_status_amended "US" 500 (.ok ⟨mkRat 255 10, 24, 0⟩)).1.mpr
    (by decide)

/-- Claim C3 counterexample: the weather-code table has 24 entries, not
the 23 the claim states. -/
theorem C3_counterexample :
    weatherCodeDescriptions.length = 24 ∧
    ¬ weatherCodeDescriptions.length = 23 := by decide

/-- Claim C3 (amended): the country table has exactly 3 entries and the
weather-code table exactly 24; both are well-formed constant maps (no
duplicate keys). -/
theorem C3_table_sizes :
    naCountryCoordinates.length = 3 ∧
    weatherCodeDescriptions.length = 24 ∧
    (naCountryCoordinates.map Prod.fst).Nodup ∧
    (weatherCodeDescriptions.map Prod.fst).Nodup := by decide

/-- Claim C4: weather-code resolution is total. Every code in the table
returns its mapped description (0 ↦ "Clear sky", 61 ↦ "Slight rain");
every absent code (e.g. 999) returns the literal "Unknown". -/
theorem C4_weather_code_resolution (code : Int) :
    (∀ d, lookupWeatherDesc code = some d → describeWeatherCode code = d) ∧
    (lookupWeatherDesc code = none → describeWeatherCode code = "Unknown") ∧
    describeWeatherCode 0 = "Clear sky" ∧
    describeWeatherCode 61 = "Slight rain" ∧
    describeWeatherCode 999 = "Unknown" := by
  refine ⟨fun d hd => ?_, fun h => ?_, rfl, rfl, rfl⟩
  · unfold describeWeatherCode
    rw [hd]
  · unfold describeWeatherCode
    rw [h]

/-- Witness for C4 at the concrete codes 0 (present) and 999 (absent). -/
theorem C4_witness :
    describeWeatherCode 0 = "Clear sky" ∧ describeWeatherCode 999 = "Unknown" :=
  ⟨(C4_weather_code_resolution 0).1 "Clear sky" (by decide),
   (C4_weather_code_resolution 999).2.1 (by decide)⟩

/-- Claim C5: on a successful fetch the summary of the result equals the
weather-code translation of the decoded `weather_code`, and the two
temperature fields copy `temperature_2m` and `apparent_temperature`
verbatim — no unit conversion. -/
theorem C5_success_fields (country : String) (r : OpenMeteoCurrent) :
    FetchWeather country (fun _ => .response StatusOK (.ok r)) =
      .ok ⟨describeWeatherCode r.WeatherCode, r.Temperature,
           r.ApparentTemperature⟩ := rfl

/-- Claim C6: every failure of `FetchWeather` — transport failure,
non-success HTTP status, or body-decode failure — yields the `error` arm
(so no `WeatherData` is produced), carrying the descriptive message Go
formats; the single `world` consultation is never retried. -/
theorem C6_failure_modes (country msg dmsg : String) (s : Int)
    (b : Except String OpenMeteoCurrent) (hs : s ≠ StatusOK) :
    FetchWeather country (fun _ => .transportFailure msg) =
      .error (.transport msg) ∧
    FetchWeather country (fun _ => .response s b) = .error (.httpStatus s) ∧
    FetchWeather country (fun _ => .response StatusOK (.error dmsg)) =
      .error (.decode dmsg) ∧
    renderFetchError (.transport msg) = "weather API call failed: " ++ msg ∧
    renderFetchError (.httpStatus s) =
      "weather API returned status " ++ toString s ∧
    renderFetchError (.decode dmsg) =
      "failed to parse weather response: " ++ dmsg := by
  refine ⟨rfl, ?_, rfl, rfl, rfl, rfl⟩
  rw [FetchWeather_response, if_pos hs]

/-- Witness for C6 at the concrete spec scenario: HTTP 500. -/
theorem C6_witness :
    FetchWeather "US" (fun _ => .response 500 (.error "boom")) =
      .error (.httpStatus 500) :=
  (C6_failure_modes "US" "x" "y" 500 (.error "boom") (by decide)).2.1

/-- Claim C7: for every country code, the request URL targets the
Open-Meteo forecast endpoint, embeds the resolved latitude and longitude
formatted to exactly 4 decimal digits as the `latitude` and `longitude`
query parameters, and carries
`current=temperature_2m,apparent_temperature,weather_code`. -/
theorem C7_request_url (country : String) :
    (country = "CA" → requestURL country =
      "https://api.open-meteo.com/v1/forecast?latitude=43.6532&longitude=-79.3832&current=temperature_2m,apparent_temperature,weather_code") ∧
    (country = "MX" → requestURL country =
      "https://api.open-meteo.com/v1/forecast?latitude=19.4326&longitude=-99.1332&current=temperature_2m,apparent_temperature,weather_code") ∧
    (country ≠ "CA" → country ≠ "MX" → requestURL country =
      "https://api.open-meteo.com/v1/forecast?latitude=40.7128&longitude=-74.0060&current=temperature_2m,apparent_temperature,weather_code") := by
  refine ⟨fun h => by subst h; rfl, fun h => by subst h; rfl, fun hCA hMX => ?_⟩
  by_cases hUS : country = "US"
  · subst hUS; rfl
  · have hl : lookupCoord country = none := by
      unfold lookupCoord naCountryCoordinates
      rw [List.find?_cons_of_neg, List.find?_cons_of_neg,
          List.find?_cons_of_neg, List.find?_nil]
      · simpa using Ne.symm hMX
      · simpa using Ne.symm hCA
      · simpa using Ne.symm hUS
    unfold requestURL resolveCoordinates
    rw [hl]
    rfl

/-- Witness for C7 at the concrete unknown code `"XX"` (falls back to the
US coordinates). -/
theorem C7_witness :
    requestURL "XX" =
      "https://api.open-meteo.com/v1/forecast?latitude=40.7128&longitude=-74.0060&current=temperature_2m,apparent_temperature,weather_code" :=
  (C7_request_url "XX").2.2 (by decide) (by decide)

/-- Claim C8: for every country code — supported or not — the resolved
coordinates satisfy latitude ∈ [-90, 90] and longitude ∈ [-180, 180];
in particular every entry of the static table does. -/
theorem C8_coordinates_in_range (country : String) :
    (-90 ≤ (resolveCoordinates country).Lat ∧
      (resolveCoordinates country).Lat ≤ 90 ∧
      -180 ≤ (resolveCoordinates country).Lon ∧
      (resolveCoordinates country).Lon ≤ 180) ∧
    ∀ p ∈ naCountryCoordinates,
      -90 ≤ p.2.Lat ∧ p.2.Lat ≤ 90 ∧ -180 ≤ p.2.Lon ∧ p.2.Lon ≤ 180 := by
  have key : ∀ p ∈ naCountryCoordinates,
      -90 ≤ p.2.Lat ∧ p.2.Lat ≤ 90 ∧ -180 ≤ p.2.Lon ∧ p.2.Lon ≤ 180 := by
    decide
  refine ⟨?_, key⟩
  unfold resolveCoordinates lookupCoord
  cases hf : naCountryCoordinates.find? (fun p => p.1 == country) with
  | none => exact ⟨by decide, by decide, by decide, by decide⟩
  | some p => exact key p (List.mem_of_find?_eq_some hf)

/-- Witness for C8 at the concrete code `"XX"` and the concrete US table
entry. -/
theorem C8_witness :
    (-90 ≤ (resolveCoordinates "XX").Lat ∧
      (resolveCoordinates "XX").Lat ≤ 90 ∧
      -180 ≤ (resolveCoordinates "XX").Lon ∧
      (resolveCoordinates "XX").Lon ≤ 180) ∧
    (-90 ≤ (⟨mkRat 407128 10000, mkRat (-740060) 10000⟩ : Coordinates).Lat ∧
      (⟨mkRat 407128 10000, mkRat (-740060) 10000⟩ : Coordinates).Lat ≤ 90 ∧
      -180 ≤ (⟨mkRat 407128 10000, mkRat (-740060) 10000⟩ : Coordinates).Lon ∧
      (⟨mkRat 407128 10000, mkRat (-740060) 10000⟩ : Coordinates).Lon ≤ 180) :=
  ⟨(C8_coordinates_in_range "XX").1,
   (C8_coordinates_in_range "XX").2
     ("US", ⟨mkRat 407128 10000, mkRat (-740060) 10000⟩) (by decide)⟩

/-- Claim C9: serializing a `WeatherData` to the output JSON object
(fields `summary`, `temperatureC`, `feelsLikeC`) and parsing it back
yields the original value field for field. -/
theorem C9_round_trip (w : WeatherData) :
    unmarshalWeatherData (marshalWeatherData w) = .ok w := rfl

/-- Helper: `describeWeatherCode` never returns the empty string: table entries
are all nonempty and the fallback is `"Unknown"`. -/
theorem describeWeatherCode_ne_empty (code : Int) :
    describeWeatherCode code ≠ "" := by
  have key : ∀ p ∈ weatherCodeDescriptions, p.2 ≠ "" := by decide
  unfold describeWeatherCode lookupWeatherDesc
  cases hf : weatherCodeDescriptions.find? (fun p => p.1 == code) with
  | none => decide
  | some p => exact key p (List.mem_of_find?_eq_some hf)

/-- Claim C10: `FetchWeather` yields exactly one of its two outcomes — a
result and no error, or an error and no result — and on success the
summary string is always nonempty (a table description or "Unknown"). -/
theorem C10_exclusive_outcomes (country : String)
    (world : String → HttpOutcome) :
    ((∃ d, FetchWeather country world = .ok d) ↔
      ¬ ∃ e, FetchWeather country world = .error e) ∧
    ∀ d, FetchWeather country world = .ok d → d.Summary ≠ "" := by
  constructor
  · cases hr : FetchWeather country world with
    | ok d => simp [hr]
    | error e => simp [hr]
  · intro d hd
    unfold FetchWeather at hd
    cases hw : world (requestURL country) with
    | transportFailure m => rw [hw] at hd; exact Except.noConfusion hd
    | response s b =>
      rw [hw] at hd
      have hd2 : (if s ≠ StatusOK then
            (Except.error (FetchError.httpStatus s) :
              Except FetchError WeatherData)
          else decodePhase b) = .ok d := hd
      by_cases hs : s ≠ StatusOK
      · rw [if_pos hs] at hd2
        exact Except.noConfusion hd2
      · rw [if_neg hs] at hd2
        cases b with
        | error m => exact Except.noConfusion hd2
        | ok r =>
          have hdd : d = ⟨describeWeatherCode r.WeatherCode, r.Temperature,
              r.ApparentTemperature⟩ := by
            injection hd2 with h
            exact h.symm
          rw [hdd]
          exact describeWeatherCode_ne_empty r.WeatherCode

/-- Witness for C10 at a concrete successful fetch. -/
theorem C10_witness :
    (⟨"Clear sky", mkRat 255 10, 24⟩ : WeatherData).Summary ≠ "" :=
  (C10_exclusive_outcomes "US"
      (fun _ => .response 200 (.ok ⟨mkRat 255 10, 24, 0⟩))).2
    ⟨"Clear sky", mkRat 255 10, 24⟩ rfl

end Feeds
